import Mathlib

/-!
Shallow embedding of `TrafficManagement.cpp`, a discrete-time traffic
micro-simulation.  C++ `double` values (speeds, positions, lane lengths)
are modelled as `ℚ`; C++ `int` values as `ℤ` (or `ℕ` for the vehicle id
counter, which starts at 1 and only grows).  The pseudo-random draws made
by `Simulation::update` / `Simulation::generateVehicle` are modelled as
oracle inputs supplied to the functions.
-/

namespace TrafficSim

/-- Mirror of `enum class LightState`. -/
inductive LightState where
  | RED
  | YELLOW
  | GREEN
deriving DecidableEq, Repr

/-- Mirror of `enum class VehicleType`. -/
inductive VehicleType where
  | CAR
  | BUS
  | TRUCK
  | MOTORCYCLE
deriving DecidableEq, Repr

/-- Mirror of `static_cast<VehicleType>(n)` for `n` drawn from `{0,1,2,3}`. -/
def VehicleType.ofIdx : ℕ → VehicleType
  | 0 => VehicleType.CAR
  | 1 => VehicleType.BUS
  | 2 => VehicleType.TRUCK
  | _ => VehicleType.MOTORCYCLE

/-- Mirror of `class Vehicle`: id, type, speed (km/h), position (m).
The `currentLane` back-reference is represented by passing the containing
lane's light state and length to `Vehicle.move`. -/
structure Vehicle where
  id : ℕ
  type : VehicleType
  speed : ℚ
  position : ℚ
deriving DecidableEq, Repr

/-- Mirror of `Vehicle::getSymbol` (the single character used by `display`). -/
def Vehicle.getSymbol (v : Vehicle) : Char :=
  match v.type with
  | VehicleType.CAR => 'C'
  | VehicleType.BUS => 'B'
  | VehicleType.TRUCK => 'T'
  | VehicleType.MOTORCYCLE => 'M'

/-- Mirror of `class TrafficLight`. -/
structure TrafficLight where
  state : LightState
  greenTime : ℤ
  yellowTime : ℤ
  redTime : ℤ
  timer : ℤ
deriving DecidableEq, Repr

/-- Mirror of the constructor `TrafficLight(int g, int y, int r)`:
state starts `RED`, timer starts `0`. -/
def TrafficLight.make (g y r : ℤ) : TrafficLight :=
  { state := LightState.RED, greenTime := g, yellowTime := y, redTime := r, timer := 0 }

/-- Mirror of `TrafficLight::update(int step)`. -/
def TrafficLight.update (step : ℤ) (l : TrafficLight) : TrafficLight :=
  let t := l.timer + step
  match l.state with
  | LightState.GREEN =>
      if t ≥ l.greenTime then { l with state := LightState.YELLOW, timer := 0 }
      else { l with timer := t }
  | LightState.YELLOW =>
      if t ≥ l.yellowTime then { l with state := LightState.RED, timer := 0 }
      else { l with timer := t }
  | LightState.RED =>
      if t ≥ l.redTime then { l with state := LightState.GREEN, timer := 0 }
      else { l with timer := t }

/-- Successor in the light cycle GREEN → YELLOW → RED → GREEN. -/
def LightState.next : LightState → LightState
  | LightState.GREEN => LightState.YELLOW
  | LightState.YELLOW => LightState.RED
  | LightState.RED => LightState.GREEN

/-- Dwell duration of the light's current state. -/
def TrafficLight.duration (l : TrafficLight) : ℤ :=
  match l.state with
  | LightState.GREEN => l.greenTime
  | LightState.YELLOW => l.yellowTime
  | LightState.RED => l.redTime

/-- Iterate `TrafficLight.update 1` a given number of times
(the per-tick light advance with step 1). -/
def lightIter : ℕ → TrafficLight → TrafficLight
  | 0, l => l
  | n + 1, l => lightIter n (l.update 1)

/-- Mirror of `class Lane` (vehicles in insertion order, owned light). -/
structure Lane where
  id : ℤ
  length : ℚ
  speedLimit : ℚ
  vehicles : List Vehicle
  light : TrafficLight
deriving DecidableEq, Repr

/-- Mirror of the constructor `Lane(int id, double len, double limit)`:
empty vehicle vector, light constructed as `new TrafficLight(10, 3, 7)`. -/
def Lane.make (id : ℤ) (len limit : ℚ) : Lane :=
  { id := id, length := len, speedLimit := limit, vehicles := [],
    light := TrafficLight.make 10 3 7 }

/-- Mirror of `Lane::addVehicle` (push_back at the end). -/
def Lane.addVehicle (v : Vehicle) (lane : Lane) : Lane :=
  { lane with vehicles := lane.vehicles ++ [v] }

/-- Mirror of `Vehicle::move(double timeStep)` for a vehicle in a lane
whose light currently shows `light` and whose length is `laneLength`. -/
def Vehicle.move (light : LightState) (laneLength : ℚ) (timeStep : ℚ)
    (v : Vehicle) : Vehicle :=
  let mps := v.speed * 1000 / 3600
  let nextPos := v.position + mps * timeStep
  if light ≠ LightState.GREEN ∧ v.position < laneLength - 10 ∧
      nextPos ≥ laneLength - 10 then
    { v with speed := 0 }
  else
    { v with position := nextPos }

/-- Mirror of the erase-while-iterating vehicle loop in `Lane::update`:
each vehicle is moved once, in order, and dropped exactly when its
post-move position reaches the lane length. -/
def processVehicles (light : LightState) (laneLength : ℚ) (timeStep : ℚ) :
    List Vehicle → List Vehicle
  | [] => []
  | v :: vs =>
      let moved := v.move light laneLength timeStep
      if moved.position ≥ laneLength then
        processVehicles light laneLength timeStep vs
      else
        moved :: processVehicles light laneLength timeStep vs

/-- Mirror of `Lane::update(int timeStep)`: the light advances first, then
the vehicles move (seeing the already-advanced light). -/
def Lane.update (timeStep : ℤ) (lane : Lane) : Lane :=
  let light := lane.light.update timeStep
  { lane with
    light := light,
    vehicles := processVehicles light.state lane.length (timeStep : ℚ) lane.vehicles }

/-- Oracle values for the pseudo-random draws a single simulation tick can
consume: the spawn draw on [0,1), the vehicle-type draw on {0..3}, the speed
draw on [20,50], and the lane-index draw. -/
structure Draws where
  u : ℚ
  typeIdx : ℕ
  speedVal : ℚ
  laneIdx : ℕ
deriving DecidableEq, Repr

/-- Apply a function to the element at a given index of a list, leaving the
list unchanged when the index is out of range (mirror of `lanes[laneIndex]`
mutation, where the index is always in range). -/
def modifyIdx {α : Type} : List α → ℕ → (α → α) → List α
  | [], _, _ => []
  | a :: as, 0, f => f a :: as
  | a :: as, n + 1, f => a :: modifyIdx as n f

/-- Mirror of `class Simulation` state: lanes, the simulation-level vehicle
collection (ownership view), the id counter `nextId`, elapsed `simTime`. -/
structure Simulation where
  lanes : List Lane
  vehicles : List Vehicle
  nextId : ℕ
  simTime : ℤ
deriving DecidableEq, Repr

/-- Mirror of `Simulation::generateVehicle` with its three distribution
draws supplied as oracle values: a fresh vehicle (id `nextId`, position 0)
is appended to the chosen lane and to the simulation-level collection, and
the id counter is incremented. -/
def Simulation.generateVehicle (typeIdx : ℕ) (speedVal : ℚ) (laneIdx : ℕ)
    (sim : Simulation) : Simulation :=
  let v : Vehicle :=
    { id := sim.nextId, type := VehicleType.ofIdx typeIdx,
      speed := speedVal, position := 0 }
  { sim with
    lanes := modifyIdx sim.lanes laneIdx (Lane.addVehicle v),
    vehicles := sim.vehicles ++ [v],
    nextId := sim.nextId + 1 }

/-- Mirror of `Simulation::update(int step)` with the tick's random draws
supplied as oracle values. -/
def Simulation.update (step : ℤ) (d : Draws) (sim : Simulation) : Simulation :=
  let s1 : Simulation := { sim with simTime := sim.simTime + step }
  let s2 : Simulation :=
    if d.u < 3 / 10 then s1.generateVehicle d.typeIdx d.speedVal d.laneIdx
    else s1
  { s2 with lanes := s2.lanes.map (Lane.update step) }

/-- Mirror of `Simulation::isRunning`. -/
def Simulation.isRunning (sim : Simulation) : Bool :=
  sim.simTime < 60

/-- Mirror of `Simulation::setup` applied to a freshly constructed
`Simulation` (nextId 1, simTime 0): two lanes of lengths 500 and 600. -/
def Simulation.setup : Simulation :=
  { lanes := [Lane.make 1 500 50, Lane.make 2 600 40],
    vehicles := [], nextId := 1, simTime := 0 }

/-! Helper lemmas about the embedded operations. -/

/-- Moving a vehicle never changes its id. -/
theorem Vehicle.move_id (light : LightState) (L step : ℚ) (v : Vehicle) :
    (v.move light L step).id = v.id := by
  simp only [Vehicle.move]
  split <;> rfl

/-- A vehicle with speed 0 is left entirely unchanged by `move`. -/
theorem Vehicle.move_of_speed_zero (v : Vehicle) (light : LightState) (L step : ℚ)
    (h : v.speed = 0) : v.move light L step = v := by
  simp only [Vehicle.move]
  have hnext : v.position + v.speed * 1000 / 3600 * step = v.position := by
    rw [h]; ring
  rw [hnext]
  rw [if_neg (by rintro ⟨-, h1, h2⟩; exact absurd h2 (not_le.mpr h1))]

/-- The erase-while-iterating loop of `Lane::update` computes a move of every
vehicle followed by removal of exactly those at or past the lane length. -/
theorem processVehicles_eq (light : LightState) (L step : ℚ) (vs : List Vehicle) :
    processVehicles light L step vs =
      (vs.map (Vehicle.move light L step)).filter (fun v => v.position < L) := by
  induction vs with
  | nil => rfl
  | cons v vs ih =>
    by_cases h : (v.move light L step).position ≥ L
    · have hnlt : ¬ (v.move light L step).position < L := not_lt.mpr h
      simp [processVehicles, h, hnlt, ih]
    · have hlt : (v.move light L step).position < L := lt_of_not_ge h
      simp [processVehicles, h, hlt, ih]

/-! Theorems for the specification claims. -/

/-- C1: for a vehicle in a lane, `move(timeStep)` computes the candidate
position `position + (speed * 1000 / 3600) * timeStep`; when the light is
not GREEN, the position is strictly before `laneLength - 10` and the
candidate is at or past `laneLength - 10`, the speed becomes 0 and the
position is unchanged; in every other case the position becomes the
candidate and the speed is unchanged. -/
theorem move_stop_line_spec (v : Vehicle) (light : LightState) (L step : ℚ) :
    (light ≠ LightState.GREEN ∧ v.position < L - 10 ∧
        v.position + v.speed * 1000 / 3600 * step ≥ L - 10 →
      v.move light L step = { v with speed := 0 }) ∧
    (¬ (light ≠ LightState.GREEN ∧ v.position < L - 10 ∧
        v.position + v.speed * 1000 / 3600 * step ≥ L - 10) →
      v.move light L step =
        { v with position := v.position + v.speed * 1000 / 3600 * step }) := by
  constructor
  · intro h
    unfold Vehicle.move
    rw [if_pos h]
  · intro h
    unfold Vehicle.move
    rw [if_neg h]

/-- Witness for C1: a car at position 489 doing 36 km/h (10 m/s) in a
500 m lane with a RED light freezes: speed 0, position still 489. -/
theorem move_stop_line_spec_witness :
    Vehicle.move LightState.RED 500 1 ⟨1, VehicleType.CAR, 36, 489⟩ =
      ⟨1, VehicleType.CAR, 0, 489⟩ :=
  (move_stop_line_spec ⟨1, VehicleType.CAR, 36, 489⟩ LightState.RED 500 1).1
    ⟨by decide, by norm_num, by norm_num⟩

/-- C2: a vehicle whose speed is 0 (as after the stop-line rule fires) is
unchanged, in speed and in position, by every later sequence of `move`
calls, whatever the light shows on each tick (GREEN included). -/
theorem stopped_vehicle_never_moves (v : Vehicle) (h : v.speed = 0)
    (ticks : List (LightState × ℚ × ℚ)) :
    ticks.foldl (fun w t => w.move t.1 t.2.1 t.2.2) v = v := by
  induction ticks with
  | nil => rfl
  | cons t ts ih =>
    simp only [List.foldl_cons]
    rw [Vehicle.move_of_speed_zero v t.1 t.2.1 t.2.2 h]
    exact ih

/-- Witness for C2: a stopped bus stays at position 100 with speed 0 over a
GREEN tick followed by a RED tick. -/
theorem stopped_vehicle_never_moves_witness :
    ([(LightState.GREEN, (500 : ℚ), (1 : ℚ)), (LightState.RED, 500, 1)] :
          List (LightState × ℚ × ℚ)).foldl
        (fun w t => w.move t.1 t.2.1 t.2.2) (⟨2, VehicleType.BUS, 0, 100⟩ : Vehicle) =
      (⟨2, VehicleType.BUS, 0, 100⟩ : Vehicle) :=
  stopped_vehicle_never_moves ⟨2, VehicleType.BUS, 0, 100⟩ rfl _

/-- C3: `TrafficLight.update step` adds `step` to the timer and advances the
state one step along the cycle GREEN → YELLOW → RED → GREEN, resetting the
timer to exactly 0, precisely when the new timer reaches or exceeds the
current state's dwell duration; and with the durations (10, 3, 7) used by
`Lane`, ten `update 1` calls starting from GREEN with timer 0 leave the
light in YELLOW. -/
theorem trafficLight_update_spec :
    (∀ (l : TrafficLight) (step : ℤ),
        l.update step =
          if l.timer + step ≥ l.duration then
            { l with state := l.state.next, timer := 0 }
          else
            { l with timer := l.timer + step }) ∧
    (lightIter 10 ⟨LightState.GREEN, 10, 3, 7, 0⟩).state = LightState.YELLOW := by
  constructor
  · intro l step
    obtain ⟨s, g, y, r, t⟩ := l
    cases s <;> rfl
  · decide

/-- C5: `Lane.update` advances the light first, and its vehicle list becomes
the in-order move of every vehicle (under the advanced light) with exactly
the vehicles whose post-move position reaches the lane length removed;
expressing the result as `filter` of `map` shows the survivors keep their
relative order. -/
theorem lane_update_spec (lane : Lane) (step : ℤ) :
    (lane.update step).light = lane.light.update step ∧
    (lane.update step).vehicles =
      (lane.vehicles.map
          (Vehicle.move (lane.light.update step).state lane.length (step : ℚ))).filter
        (fun v => v.position < lane.length) := by
  refine ⟨rfl, ?_⟩
  simp only [Lane.update]
  exact processVehicles_eq _ _ _ _

/-- C9: with non-negative speed and a non-negative time step, `move` never
decreases the position: it either advances the vehicle or (on a stop-line
freeze tick) leaves the position unchanged. -/
theorem move_position_monotone (v : Vehicle) (light : LightState) (L step : ℚ)
    (hs : 0 ≤ v.speed) (ht : 0 ≤ step) :
    v.position ≤ (v.move light L step).position := by
  unfold Vehicle.move
  by_cases h : light ≠ LightState.GREEN ∧ v.position < L - 10 ∧
      v.position + v.speed * 1000 / 3600 * step ≥ L - 10
  · rw [if_pos h]
  · rw [if_neg h]
    have hnn : 0 ≤ v.speed * 1000 / 3600 * step :=
      mul_nonneg (div_nonneg (mul_nonneg hs (by norm_num)) (by norm_num)) ht
    simp only
    linarith

/-- Witness for C9: a car at position 0 doing 36 km/h on GREEN ends at a
position at least its starting one. -/
theorem move_position_monotone_witness :
    Vehicle.position ⟨1, VehicleType.CAR, 36, 0⟩ ≤
      (Vehicle.move LightState.GREEN 500 1 ⟨1, VehicleType.CAR, 36, 0⟩).position :=
  move_position_monotone ⟨1, VehicleType.CAR, 36, 0⟩ LightState.GREEN 500 1
    (by norm_num) (by norm_num)

/-- Mirror of the `while (sim.isRunning()) { sim.update(1); ... }` loop in
`main`, counting iterations; `none` means the fuel ran out with the guard
still true. -/
def runLoop : ℕ → Simulation → (ℕ → Draws) → Option ℕ
  | 0, sim, _ => if sim.isRunning then none else some 0
  | fuel + 1, sim, ds =>
      if sim.isRunning then
        Option.map (fun k => k + 1) (runLoop fuel (sim.update 1 (ds 0)) (fun n => ds (n + 1)))
      else some 0

/-- Iterate `Simulation.update` with step 1, consuming one tick's draws at
a time. -/
def iterUpdate : ℕ → (ℕ → Draws) → Simulation → Simulation
  | 0, _, sim => sim
  | n + 1, ds, sim => iterUpdate n (fun k => ds (k + 1)) (sim.update 1 (ds 0))

/-- One simulation tick advances `simTime` by exactly `step`, whatever the
random draws were. -/
theorem simTime_update (sim : Simulation) (step : ℤ) (d : Draws) :
    (sim.update step d).simTime = sim.simTime + step := by
  simp only [Simulation.update, Simulation.generateVehicle]
  split <;> rfl

/-- After `n` step-1 ticks the elapsed time has grown by exactly `n`. -/
theorem iterUpdate_simTime : ∀ (n : ℕ) (ds : ℕ → Draws) (sim : Simulation),
    (iterUpdate n ds sim).simTime = sim.simTime + n
  | 0, _, sim => by simp [iterUpdate]
  | n + 1, ds, sim => by
      rw [iterUpdate, iterUpdate_simTime n, simTime_update]
      push_cast
      ring

/-- The main loop from a state with elapsed time `t` runs for exactly
`(60 - t).toNat` further iterations, given enough fuel. -/
theorem runLoop_count : ∀ (fuel : ℕ) (sim : Simulation) (ds : ℕ → Draws),
    (60 - sim.simTime).toNat ≤ fuel →
    runLoop fuel sim ds = some (60 - sim.simTime).toNat := by
  intro fuel
  induction fuel with
  | zero =>
    intro sim ds h
    have hstop : sim.isRunning = false := by
      simp only [Simulation.isRunning, decide_eq_false_iff_not, not_lt]
      omega
    rw [runLoop, if_neg (by simp [hstop])]
    congr 1
    omega
  | succ fuel ih =>
    intro sim ds h
    by_cases hr : sim.simTime < 60
    · have hrun : sim.isRunning = true := by
        simp only [Simulation.isRunning, decide_eq_true_eq]
        exact hr
      rw [runLoop, if_pos hrun]
      rw [ih (sim.update 1 (ds 0)) (fun n => ds (n + 1)) (by rw [simTime_update]; omega)]
      rw [simTime_update]
      simp only [Option.map_some']
      congr 1
      omega
    · have hstop : sim.isRunning = false := by
        simp only [Simulation.isRunning, decide_eq_false_iff_not, not_lt]
        omega
      rw [runLoop, if_neg (by simp [hstop])]
      congr 1
      omega

/-- C4: one simulation tick first advances `simTime` by `step`; then, exactly
when the spawn draw is below 0.3, it creates one vehicle (fresh id `nextId`,
type from the type draw, speed from the speed draw, position 0), appends it
to the drawn lane's collection and to the simulation-level collection and
increments the id counter; finally every lane is updated in its stored
order (randomness is supplied as the oracle record `d`). -/
theorem simulation_update_spec (sim : Simulation) (step : ℤ) (d : Draws) :
    (sim.update step d).simTime = sim.simTime + step ∧
    (d.u < 3 / 10 →
      (sim.update step d).vehicles =
          sim.vehicles ++
            [{ id := sim.nextId, type := VehicleType.ofIdx d.typeIdx,
               speed := d.speedVal, position := 0 }] ∧
      (sim.update step d).nextId = sim.nextId + 1 ∧
      (sim.update step d).lanes =
        (modifyIdx sim.lanes d.laneIdx
            (Lane.addVehicle
              { id := sim.nextId, type := VehicleType.ofIdx d.typeIdx,
                speed := d.speedVal, position := 0 })).map (Lane.update step)) ∧
    (¬ d.u < 3 / 10 →
      (sim.update step d).vehicles = sim.vehicles ∧
      (sim.update step d).nextId = sim.nextId ∧
      (sim.update step d).lanes = sim.lanes.map (Lane.update step)) := by
  refine ⟨simTime_update sim step d, ?_, ?_⟩
  · intro h
    simp only [Simulation.update, Simulation.generateVehicle]
    rw [if_pos h]
    exact ⟨rfl, rfl, rfl⟩
  · intro h
    simp only [Simulation.update, Simulation.generateVehicle]
    rw [if_neg h]
    exact ⟨rfl, rfl, rfl⟩

/-- Witness for C4: on the freshly set-up simulation, a tick whose spawn
draw is 0 spawns: the id counter moves to 2, elapsed time to 1, and the
vehicle list becomes the one new car. -/
theorem simulation_update_spec_witness :
    (Simulation.setup.update 1 ⟨0, 0, 30, 0⟩).nextId = 2 ∧
    (Simulation.setup.update 1 ⟨0, 0, 30, 0⟩).simTime = 1 ∧
    (Simulation.setup.update 1 ⟨0, 0, 30, 0⟩).vehicles =
      [⟨1, VehicleType.CAR, 30, 0⟩] := by
  have h := simulation_update_spec Simulation.setup 1 ⟨0, 0, 30, 0⟩
  have hs := h.2.1 (by norm_num)
  exact ⟨hs.2.1, h.1, hs.1⟩

/-- C6: with step 1 the elapsed time after 60 ticks is exactly 60,
`isRunning` is then false, and the `main` while-loop performs exactly 60
iterations before terminating, for every draw oracle and any fuel bound of
at least 60. -/
theorem main_loop_sixty_ticks (ds : ℕ → Draws) (fuel : ℕ) (h : 60 ≤ fuel) :
    (iterUpdate 60 ds Simulation.setup).simTime = 60 ∧
    (iterUpdate 60 ds Simulation.setup).isRunning = false ∧
    runLoop fuel Simulation.setup ds = some 60 := by
  have ht : (iterUpdate 60 ds Simulation.setup).simTime = 60 := by
    rw [iterUpdate_simTime]
    rfl
  refine ⟨ht, ?_, ?_⟩
  · simp only [Simulation.isRunning, ht, decide_eq_false_iff_not, not_lt]
    omega
  · have hc := runLoop_count fuel Simulation.setup ds (by
      have h0 : Simulation.setup.simTime = 0 := rfl
      rw [h0]
      omega)
    rw [hc]
    rfl

/-- Witness for C6: with fuel exactly 60 and a constant no-spawn oracle the
loop returns 60 iterations. -/
theorem main_loop_sixty_ticks_witness :
    runLoop 60 Simulation.setup (fun _ => ⟨1, 0, 30, 0⟩) = some 60 :=
  (main_loop_sixty_ticks (fun _ => ⟨1, 0, 30, 0⟩) 60 (by decide)).2.2

/-- Whether some lane's collection currently holds a vehicle with id `i`
(exactly the vehicles `Simulation::display` can draw). -/
def idInLanes (i : ℕ) (sim : Simulation) : Bool :=
  sim.lanes.any (fun ln => ln.vehicles.any (fun v => v.id == i))

/-- Unfolding of `idInLanes i sim = false` into a statement about every lane
vehicle. -/
theorem idInLanes_false_iff {i : ℕ} {sim : Simulation} :
    idInLanes i sim = false ↔ ∀ ln ∈ sim.lanes, ∀ v ∈ ln.vehicles, v.id ≠ i := by
  rw [Bool.eq_false_iff]
  simp [idInLanes, List.any_eq_true]

/-- Membership after `modifyIdx`: each element is an original element or the
image under the modification of an original element. -/
theorem mem_modifyIdx {α : Type} {l : List α} {k : ℕ} {f : α → α} {x : α}
    (hx : x ∈ modifyIdx l k f) : x ∈ l ∨ ∃ a ∈ l, x = f a := by
  induction l generalizing k with
  | nil => simp [modifyIdx] at hx
  | cons a as ih =>
    cases k with
    | zero =>
      rcases List.mem_cons.mp hx with h | h
      · exact Or.inr ⟨a, List.mem_cons_self a as, h⟩
      · exact Or.inl (List.mem_cons_of_mem _ h)
    | succ k =>
      rcases List.mem_cons.mp hx with h | h
      · exact Or.inl (h ▸ List.mem_cons_self a as)
      · rcases ih h with h2 | ⟨b, hb, hbx⟩
        · exact Or.inl (List.mem_cons_of_mem _ h2)
        · exact Or.inr ⟨b, List.mem_cons_of_mem _ hb, hbx⟩

/-- Every vehicle present after `Lane.update` carries the id of a vehicle
that was in the lane before the update: lane updates add no vehicle. -/
theorem lane_update_mem {lane : Lane} {step : ℤ} {w : Vehicle}
    (hw : w ∈ (lane.update step).vehicles) : ∃ v ∈ lane.vehicles, w.id = v.id := by
  have hw2 : w ∈ processVehicles (lane.light.update step).state lane.length
      (step : ℚ) lane.vehicles := hw
  rw [processVehicles_eq] at hw2
  rcases List.mem_filter.mp hw2 with ⟨hmem, -⟩
  rcases List.mem_map.mp hmem with ⟨v, hv, hvw⟩
  exact ⟨v, hv, by rw [← hvw, Vehicle.move_id]⟩

/-- When the spawn draw is below 0.3 the post-tick lanes are the per-lane
update of the lanes with the fresh vehicle appended to the drawn lane. -/
theorem update_lanes_spawn (sim : Simulation) (step : ℤ) (d : Draws)
    (hc : d.u < 3 / 10) :
    (sim.update step d).lanes =
      (modifyIdx sim.lanes d.laneIdx
          (Lane.addVehicle
            { id := sim.nextId, type := VehicleType.ofIdx d.typeIdx,
              speed := d.speedVal, position := 0 })).map (Lane.update step) := by
  simp only [Simulation.update, Simulation.generateVehicle]
  rw [if_pos hc]

/-- When the spawn draw is not below 0.3 the post-tick lanes are just the
per-lane update of the previous lanes. -/
theorem update_lanes_nospawn (sim : Simulation) (step : ℤ) (d : Draws)
    (hc : ¬ d.u < 3 / 10) :
    (sim.update step d).lanes = sim.lanes.map (Lane.update step) := by
  simp only [Simulation.update, Simulation.generateVehicle]
  rw [if_neg hc]

/-- The id counter never decreases across a tick. -/
theorem update_nextId_ge (sim : Simulation) (step : ℤ) (d : Draws) :
    sim.nextId ≤ (sim.update step d).nextId := by
  simp only [Simulation.update, Simulation.generateVehicle]
  split
  · exact Nat.le_succ _
  · exact Nat.le.refl

/-- A tick never brings an id below the counter back into any lane. -/
theorem update_preserves_absent (sim : Simulation) (i : ℕ) (step : ℤ) (d : Draws)
    (hlt : i < sim.nextId) (h : idInLanes i sim = false) :
    i < (sim.update step d).nextId ∧ idInLanes i (sim.update step d) = false := by
  rw [idInLanes_false_iff] at h
  refine ⟨lt_of_lt_of_le hlt (update_nextId_ge sim step d), ?_⟩
  rw [idInLanes_false_iff]
  intro ln2 hln2 w hw
  by_cases hc : d.u < 3 / 10
  · rw [update_lanes_spawn sim step d hc] at hln2
    rcases List.mem_map.mp hln2 with ⟨ln1, hln1, hup⟩
    rcases lane_update_mem (hup ▸ hw) with ⟨v, hv, hid⟩
    rcases mem_modifyIdx hln1 with h2 | ⟨ln0, hln0, hadd⟩
    · rw [hid]
      exact h ln1 h2 v hv
    · rw [hadd] at hv
      have hv2 : v ∈ ln0.vehicles ++
          [{ id := sim.nextId, type := VehicleType.ofIdx d.typeIdx,
             speed := d.speedVal, position := 0 }] := hv
      rcases List.mem_append.mp hv2 with hv3 | hv3
      · rw [hid]
        exact h ln0 hln0 v hv3
      · have hvn := List.mem_singleton.mp hv3
        rw [hid, hvn]
        simp only
        omega
  · rw [update_lanes_nospawn sim step d hc] at hln2
    rcases List.mem_map.mp hln2 with ⟨ln1, hln1, hup⟩
    rcases lane_update_mem (hup ▸ hw) with ⟨v, hv, hid⟩
    rw [hid]
    exact h ln1 hln1 v hv

/-- C7: once no lane holds a vehicle with id `i` (as after the tick in which
that vehicle's position reached the lane length and it was erased) and `i`
is below the id counter, no sequence of further ticks ever puts id `i` back
into any lane; since `Simulation::display` draws only vehicles in lanes, the
removed vehicle never appears in a subsequent render. -/
theorem removed_vehicle_never_reappears (sim : Simulation) (i : ℕ)
    (hlt : i < sim.nextId) (h : idInLanes i sim = false)
    (ds : List (ℤ × Draws)) :
    idInLanes i (ds.foldl (fun s t => s.update t.1 t.2) sim) = false := by
  induction ds generalizing sim with
  | nil => exact h
  | cons t ts ih =>
    simp only [List.foldl_cons]
    have p := update_preserves_absent sim i t.1 t.2 hlt h
    exact ih _ p.1 p.2

/-- Witness for C7: id 0 is below the fresh counter, absent from the fresh
lanes, and still absent after a tick. -/
theorem removed_vehicle_never_reappears_witness :
    0 < Simulation.setup.nextId ∧ idInLanes 0 Simulation.setup = false ∧
    idInLanes 0
        (([((1 : ℤ), (⟨1, 0, 30, 0⟩ : Draws))]).foldl
          (fun s t => s.update t.1 t.2) Simulation.setup) = false :=
  ⟨by decide, rfl,
    removed_vehicle_never_reappears Simulation.setup 0 (by decide) rfl _⟩

/-- Mirror of `static_cast<int>` applied to a `double`: truncation toward
zero. -/
def ratTrunc (q : ℚ) : ℤ :=
  if 0 ≤ q then ⌊q⌋ else ⌈q⌉

/-- A bounds-checked write into the track buffer: mirror of `road[pos] = c`,
with `none` standing for the out-of-bounds access C++ would make undefined. -/
def setCharChecked (road : List Char) (i : ℤ) (c : Char) : Option (List Char) :=
  if 0 ≤ i ∧ i.toNat < road.length then some (road.set i.toNat c) else none

/-- Mirror of the vehicle-drawing loop of `Simulation::display` for one lane:
each vehicle's track index is the integer truncation of
`(position / laneLength) * 50`, and the write happens only under the guard
`pos >= 0 && pos < 50`. -/
def renderVehicles (L : ℚ) : List Char → List Vehicle → Option (List Char)
  | road, [] => some road
  | road, v :: vs =>
      let pos := ratTrunc (v.position / L * 50)
      if 0 ≤ pos ∧ pos < 50 then
        match setCharChecked road pos v.getSymbol with
        | some road2 => renderVehicles L road2 vs
        | none => none
      else renderVehicles L road vs

/-- Mirror of the per-lane rendering in `Simulation::display`: a 50-character
track of `'-'` with each lane vehicle drawn in. -/
def renderLane (lane : Lane) : Option (List Char) :=
  renderVehicles lane.length (List.replicate 50 '-') lane.vehicles

/-- Rendering any vehicle list into a 50-character track succeeds (every
performed write is in bounds) and returns a 50-character track. -/
theorem renderVehicles_total (L : ℚ) :
    ∀ (vs : List Vehicle) (road : List Char), road.length = 50 →
    ∃ r, renderVehicles L road vs = some r ∧ r.length = 50 := by
  intro vs
  induction vs with
  | nil => exact fun road h => ⟨road, rfl, h⟩
  | cons v vs ih =>
    intro road h
    rw [renderVehicles]
    by_cases hp : 0 ≤ ratTrunc (v.position / L * 50) ∧ ratTrunc (v.position / L * 50) < 50
    · rw [if_pos hp]
      have hset : setCharChecked road (ratTrunc (v.position / L * 50)) v.getSymbol =
          some (road.set (ratTrunc (v.position / L * 50)).toNat v.getSymbol) := by
        rw [setCharChecked, if_pos ⟨hp.1, by omega⟩]
      rw [hset]
      exact ih _ (by simpa using h)
    · rw [if_neg hp]
      exact ih road h

/-- C8: for every lane and every vehicle position (negative values
included), rendering computes each track index as the integer truncation of
`(position / laneLength) * 50`, performs a write only when that index lies
in [0, 49], and consequently never accesses the 50-character track out of
bounds: the render always succeeds and returns exactly 50 characters. -/
theorem renderLane_in_bounds (lane : Lane) :
    ∃ r, renderLane lane = some r ∧ r.length = 50 :=
  renderVehicles_total lane.length lane.vehicles (List.replicate 50 '-') (by simp)

/-- C10: every `TrafficLight` is constructed RED with timer 0; every `Lane`
builds its light with durations green 10, yellow 3, red 7; both lanes of
the freshly set-up simulation therefore show RED, the light is still RED
after each of the first six step-1 updates, and the seventh update turns it
GREEN. -/
theorem lights_start_red :
    (∀ g y r : ℤ, (TrafficLight.make g y r).state = LightState.RED ∧
        (TrafficLight.make g y r).timer = 0) ∧
    (∀ (id : ℤ) (len limit : ℚ), (Lane.make id len limit).light = TrafficLight.make 10 3 7) ∧
    Simulation.setup.lanes.map (fun ln => ln.light.state) =
      [LightState.RED, LightState.RED] ∧
    (∀ k : ℕ, k < 7 → (lightIter k (TrafficLight.make 10 3 7)).state = LightState.RED) ∧
    (lightIter 7 (TrafficLight.make 10 3 7)).state = LightState.GREEN := by
  refine ⟨fun g y r => ⟨rfl, rfl⟩, fun id len limit => rfl, rfl, ?_, by decide⟩
  decide

/-- Witness for C10: after three step-1 updates the lane light is still
RED. -/
theorem lights_start_red_witness :
    3 < 7 ∧ (lightIter 3 (TrafficLight.make 10 3 7)).state = LightState.RED :=
  ⟨by decide, lights_start_red.2.2.2.1 3 (by decide)⟩

end TrafficSim
